import Mathlib

/-!
Shallow embedding of the Ledger-Consistency and Aggregation Engine of the
Salesmanager backend (`src/backend/server.py`).

Modelling conventions:
* Python `float` values (costs, prices, derived metrics) are modelled as `ℚ`;
  the arithmetic in the source is plain `+ - * /` on decimals.
* Python `int` values that flow in from requests (`quantity`,
  `quantity_in_stock`, `reorder_level`) are modelled as `ℤ`: pydantic's `int`
  accepts any integer, including negative ones.
* Timestamps (`datetime.utcnow()`) are abstract ticks, modelled as `ℕ` and
  passed explicitly to each operation that reads the clock; freshly generated
  UUIDs are `String` parameters passed explicitly.
* Each Mongo collection is a `List` of documents in insertion order:
  `insert_one` appends, `find_one` returns the first match, `update_one`
  patches the first match, `delete_one` removes the first match and reports
  the deleted count.
* `SalesTransaction.date_sold` is a `date` in the pydantic object but is
  serialized with `.isoformat()` before every write and re-parsed with
  `datetime.fromisoformat(...).date()` on every read, so the transaction
  document type stores it as a `String`.
-/

namespace SalesManager

/-- Calendar date, as Python's `datetime.date` (year 1..9999 enforced by the
`date` constructor; validity is tracked by `ValidDate` below). -/
structure Date where
  year : Nat
  month : Nat
  day : Nat
deriving DecidableEq, Repr

def isLeapYear (y : Nat) : Bool :=
  y % 4 == 0 && (y % 100 != 0 || y % 400 == 0)

def daysInMonth (y m : Nat) : Nat :=
  if m == 2 then (if isLeapYear y then 29 else 28)
  else if m == 4 || m == 6 || m == 9 || m == 11 then 30
  else 31

/-- The range Python's `datetime.date` constructor (and hence
`datetime.fromisoformat`) accepts. -/
def ValidDate (d : Date) : Prop :=
  1 ≤ d.year ∧ d.year ≤ 9999 ∧ 1 ≤ d.month ∧ d.month ≤ 12 ∧
    1 ≤ d.day ∧ d.day ≤ daysInMonth d.year d.month

instance (d : Date) : Decidable (ValidDate d) := by
  unfold ValidDate; exact inferInstance

def digitChar (n : Nat) : Char := Char.ofNat (48 + n)

def digitVal (c : Char) : Nat := c.toNat - 48

/-- `date.isoformat()`: the ten-character string `YYYY-MM-DD`. -/
def dateIso (d : Date) : String :=
  ⟨[digitChar (d.year / 1000 % 10), digitChar (d.year / 100 % 10),
    digitChar (d.year / 10 % 10), digitChar (d.year % 10), '-',
    digitChar (d.month / 10 % 10), digitChar (d.month % 10), '-',
    digitChar (d.day / 10 % 10), digitChar (d.day % 10)]⟩

/-- `datetime.fromisoformat(s).date()` for a date-only string: fixed-width
`YYYY-MM-DD` parsing, `none` when Python would raise `ValueError` (wrong
shape, non-digits, or out-of-range month/day). -/
def dateFromIso (s : String) : Option Date :=
  match s.data with
  | [y1, y2, y3, y4, s1, m1, m2, s2, d1, d2] =>
    if y1.isDigit ∧ y2.isDigit ∧ y3.isDigit ∧ y4.isDigit ∧ s1 = '-' ∧
        m1.isDigit ∧ m2.isDigit ∧ s2 = '-' ∧ d1.isDigit ∧ d2.isDigit then
      let y := ((digitVal y1 * 10 + digitVal y2) * 10 + digitVal y3) * 10 + digitVal y4
      let m := digitVal m1 * 10 + digitVal m2
      let dd := digitVal d1 * 10 + digitVal d2
      if 1 ≤ y ∧ 1 ≤ m ∧ m ≤ 12 ∧ 1 ≤ dd ∧ dd ≤ daysInMonth y m then
        some ⟨y, m, dd⟩
      else none
    else none
  | _ => none

/-- The pydantic `SalesTransaction` object (response model). -/
structure SalesTransaction where
  id : String
  item_name : String
  purchase_cost : ℚ
  retail_price : ℚ
  quantity : ℤ
  profit : ℚ
  revenue : ℚ
  profit_margin : ℚ
  date_sold : Date
  created_at : Nat
deriving DecidableEq, Repr

/-- A transaction document as stored in `db.transactions`: the `.dict()` of a
`SalesTransaction` with `date_sold` replaced by its isoformat string. -/
structure TransactionDoc where
  id : String
  item_name : String
  purchase_cost : ℚ
  retail_price : ℚ
  quantity : ℤ
  profit : ℚ
  revenue : ℚ
  profit_margin : ℚ
  date_sold : String
  created_at : Nat
deriving DecidableEq, Repr

def serializeTransaction (t : SalesTransaction) : TransactionDoc :=
  { id := t.id, item_name := t.item_name, purchase_cost := t.purchase_cost,
    retail_price := t.retail_price, quantity := t.quantity, profit := t.profit,
    revenue := t.revenue, profit_margin := t.profit_margin,
    date_sold := dateIso t.date_sold, created_at := t.created_at }

/-- Request body of `POST /api/transactions` (`SalesTransactionCreate`);
`quantity` defaults to `1` and `date_sold` to `None` at the pydantic layer,
so a bound request always carries concrete values here. -/
structure SalesTransactionCreate where
  item_name : String
  purchase_cost : ℚ
  retail_price : ℚ
  quantity : ℤ
  date_sold : Option Date
deriving DecidableEq, Repr

/-- Request body of `PUT /api/transactions/...` (`SalesTransactionUpdate`)
after `.dict(exclude_unset=True)`: `none` means the field was not supplied. -/
structure SalesTransactionUpdate where
  item_name : Option String
  purchase_cost : Option ℚ
  retail_price : Option ℚ
  quantity : Option ℤ
  date_sold : Option Date
deriving DecidableEq, Repr

/-- An inventory document as stored in `db.inventory` (identical to the
pydantic `InventoryItem`'s `.dict()`).

`category_kv` models the `category` slot of the document as a key-value
entry: `some v` means the key is present with value `v` (where `v = none` is
Python's `None`), and `none` means the key is absent.  The distinction
matters because `get_inventory_stats` reads it with
`item.get('category', 'Uncategorized')`, whose default applies only to an
absent key — and every write path of this API emits the key (pydantic
`.dict()` always includes `category`, as `None` when unset). -/
structure InventoryItem where
  id : String
  item_name : String
  purchase_cost : ℚ
  suggested_retail_price : ℚ
  quantity_in_stock : ℤ
  reorder_level : ℤ
  supplier : Option String
  category_kv : Option (Option String)
  created_at : Nat
  updated_at : Nat
deriving DecidableEq, Repr

/-- Request body of `POST /api/inventory` (`InventoryItemCreate`);
`reorder_level` defaults to `5` and `supplier`/`category` to `None` at the
pydantic layer. -/
structure InventoryItemCreate where
  item_name : String
  purchase_cost : ℚ
  suggested_retail_price : ℚ
  quantity_in_stock : ℤ
  reorder_level : ℤ
  supplier : Option String
  category : Option String
deriving DecidableEq, Repr

/-- Request body of `PUT /api/inventory/...` (`InventoryItemUpdate`) after
`.dict(exclude_unset=True)`: the outer `Option` is "was the field supplied",
the inner one (for `supplier`/`category`) is the supplied value, which may
itself be Python `None`. -/
structure InventoryItemUpdate where
  item_name : Option String
  purchase_cost : Option ℚ
  suggested_retail_price : Option ℚ
  quantity_in_stock : Option ℤ
  reorder_level : Option ℤ
  supplier : Option (Option String)
  category : Option (Option String)
deriving DecidableEq, Repr

structure Metrics where
  profit : ℚ
  revenue : ℚ
  profit_margin : ℚ
deriving DecidableEq, Repr

/-- `calculate_transaction_metrics` (server.py lines 108-122), reading the
three base fields of the transaction dict. -/
def calculate_transaction_metrics (purchase_cost retail_price : ℚ)
    (quantity : ℤ) : Metrics :=
  let profit_per_item := retail_price - purchase_cost
  { profit := profit_per_item * (quantity : ℚ)
    revenue := retail_price * (quantity : ℚ)
    profit_margin :=
      if retail_price > 0 then profit_per_item / retail_price * 100 else 0 }

/-- Outcome of an endpoint, as its HTTP surface distinguishes it:
`ok` (200 with a payload), `notFound` (the raised 404 `HTTPException`), and
`serverError` (an unhandled exception, e.g. `ValueError` from
`datetime.fromisoformat` on a malformed stored date). -/
inductive Resp (α : Type) where
  | ok (a : α)
  | notFound
  | serverError
deriving DecidableEq, Repr

/-- Mongo `update_one`: patch the first document matching the predicate,
leave everything else unchanged. -/
def updateFirst {α : Type} (p : α → Bool) (f : α → α) : List α → List α
  | [] => []
  | x :: xs => if p x then f x :: xs else x :: updateFirst p f xs

/-- Mongo `delete_one`: remove the first document matching the predicate and
report `deleted_count` (`0` or `1`). -/
def deleteOne {α : Type} (p : α → Bool) : List α → Nat × List α
  | [] => (0, [])
  | x :: xs =>
    if p x then (1, xs)
    else
      let r := deleteOne p xs
      (r.1, x :: r.2)

/-- The two shared collections (`db.transactions`, `db.inventory`), each in
insertion order. -/
structure AppState where
  transactions : List TransactionDoc
  inventory : List InventoryItem
deriving DecidableEq, Repr

/-- `update_inventory_on_sale` (server.py lines 125-136): `find_one` by item
name; when found, clamp the decremented quantity at `0` and `update_one`
(same name predicate, hence the same first-matching document) setting the
new quantity and `updated_at`; when not found, do nothing. -/
def update_inventory_on_sale (inv : List InventoryItem) (item_name : String)
    (quantity_sold : ℤ) (now : Nat) : List InventoryItem :=
  match inv.find? (fun it => it.item_name == item_name) with
  | none => inv
  | some it =>
    let nq := it.quantity_in_stock - quantity_sold
    let new_quantity := if nq < 0 then 0 else nq
    updateFirst (fun i => i.item_name == item_name)
      (fun i => { i with quantity_in_stock := new_quantity, updated_at := now })
      inv

/-- `create_transaction` (server.py lines 144-169): default `date_sold` to
today when absent, compute the metrics, build the object with a fresh id and
the current time, insert its serialized dict, then run the inventory
synchronizer.  `today`, `freshId` and `now` determinize `date.today()`,
`uuid4()` and `datetime.utcnow()`. -/
def create_transaction (st : AppState) (input : SalesTransactionCreate)
    (today : Date) (freshId : String) (now : Nat) :
    SalesTransaction × AppState :=
  let date_sold := input.date_sold.getD today
  let m := calculate_transaction_metrics input.purchase_cost
    input.retail_price input.quantity
  let transaction_obj : SalesTransaction :=
    { id := freshId, item_name := input.item_name,
      purchase_cost := input.purchase_cost, retail_price := input.retail_price,
      quantity := input.quantity, profit := m.profit, revenue := m.revenue,
      profit_margin := m.profit_margin, date_sold := date_sold,
      created_at := now }
  let transactions := st.transactions ++ [serializeTransaction transaction_obj]
  let inventory :=
    update_inventory_on_sale st.inventory transaction_obj.item_name
      transaction_obj.quantity now
  (transaction_obj, { transactions := transactions, inventory := inventory })

/-- Rebuild the pydantic `SalesTransaction` from a stored document, parsing
`date_sold` back from its isoformat string. -/
def deserializeTransaction (doc : TransactionDoc) : Option SalesTransaction :=
  (dateFromIso doc.date_sold).map fun d =>
    { id := doc.id, item_name := doc.item_name,
      purchase_cost := doc.purchase_cost, retail_price := doc.retail_price,
      quantity := doc.quantity, profit := doc.profit, revenue := doc.revenue,
      profit_margin := doc.profit_margin, date_sold := d,
      created_at := doc.created_at }

/-- `get_transaction` (server.py lines 182-192): `find_one` by id, 404 when
absent, otherwise parse the stored date string back and return the record. -/
def get_transaction (transactions : List TransactionDoc) (transaction_id : String) :
    Resp SalesTransaction :=
  match transactions.find? (fun t => t.id == transaction_id) with
  | none => .notFound
  | some doc =>
    match deserializeTransaction doc with
    | none => .serverError
    | some t => .ok t

/-- `update_transaction` (server.py lines 194-231): 404 when the id is
absent; otherwise parse the stored date, merge only the supplied fields onto
the existing record, recompute the metrics from the merged base fields, set
`created_at` to now, and `update_one` the serialized result back under the
same id. -/
def update_transaction (transactions : List TransactionDoc)
    (transaction_id : String) (input : SalesTransactionUpdate) (now : Nat) :
    Resp SalesTransaction × List TransactionDoc :=
  match transactions.find? (fun t => t.id == transaction_id) with
  | none => (.notFound, transactions)
  | some existing =>
    match dateFromIso existing.date_sold with
    | none => (.serverError, transactions)
    | some d0 =>
      let m := calculate_transaction_metrics
        (input.purchase_cost.getD existing.purchase_cost)
        (input.retail_price.getD existing.retail_price)
        (input.quantity.getD existing.quantity)
      let updated_transaction : SalesTransaction :=
        { id := existing.id,
          item_name := input.item_name.getD existing.item_name,
          purchase_cost := input.purchase_cost.getD existing.purchase_cost,
          retail_price := input.retail_price.getD existing.retail_price,
          quantity := input.quantity.getD existing.quantity,
          profit := m.profit, revenue := m.revenue,
          profit_margin := m.profit_margin,
          date_sold := input.date_sold.getD d0,
          created_at := now }
      (.ok updated_transaction,
        updateFirst (fun t => t.id == transaction_id)
          (fun _ => serializeTransaction updated_transaction) transactions)

/-- `delete_transaction` (server.py lines 233-238): `delete_one` by id, 404
when `deleted_count == 0`. -/
def delete_transaction (transactions : List TransactionDoc)
    (transaction_id : String) : Resp Unit × List TransactionDoc :=
  let r := deleteOne (fun t => t.id == transaction_id) transactions
  if r.1 == 0 then (.notFound, transactions) else (.ok (), r.2)

/-- `create_inventory_item` (server.py lines 241-249): build the pydantic
object (fresh id, both timestamps now) and insert its dict; the `category`
key is always written, with value `input.category` (possibly `None`). -/
def create_inventory_item (inv : List InventoryItem)
    (input : InventoryItemCreate) (freshId : String) (now : Nat) :
    InventoryItem × List InventoryItem :=
  let item_obj : InventoryItem :=
    { id := freshId, item_name := input.item_name,
      purchase_cost := input.purchase_cost,
      suggested_retail_price := input.suggested_retail_price,
      quantity_in_stock := input.quantity_in_stock,
      reorder_level := input.reorder_level, supplier := input.supplier,
      category_kv := some input.category, created_at := now,
      updated_at := now }
  (item_obj, inv ++ [item_obj])

/-- `get_inventory_item` (server.py lines 256-261): `find_one` by id, 404
when absent. -/
def get_inventory_item (inv : List InventoryItem) (item_id : String) :
    Resp InventoryItem :=
  match inv.find? (fun it => it.id == item_id) with
  | none => .notFound
  | some it => .ok it

/-- `update_inventory_item` (server.py lines 263-285): 404 when the id is
absent; otherwise merge only the supplied fields onto the existing document,
set `updated_at` to now, and `update_one` the result back under the same id.
No derived fields are recomputed. -/
def update_inventory_item (inv : List InventoryItem) (item_id : String)
    (input : InventoryItemUpdate) (now : Nat) :
    Resp InventoryItem × List InventoryItem :=
  match inv.find? (fun it => it.id == item_id) with
  | none => (.notFound, inv)
  | some existing =>
    let updated_item : InventoryItem :=
      { id := existing.id,
        item_name := input.item_name.getD existing.item_name,
        purchase_cost := input.purchase_cost.getD existing.purchase_cost,
        suggested_retail_price :=
          input.suggested_retail_price.getD existing.suggested_retail_price,
        quantity_in_stock :=
          input.quantity_in_stock.getD existing.quantity_in_stock,
        reorder_level := input.reorder_level.getD existing.reorder_level,
        supplier := input.supplier.getD existing.supplier,
        category_kv :=
          match input.category with
          | some v => some v
          | none => existing.category_kv,
        created_at := existing.created_at, updated_at := now }
    (.ok updated_item,
      updateFirst (fun it => it.id == item_id) (fun _ => updated_item) inv)

/-- `delete_inventory_item` (server.py lines 287-292): `delete_one` by id,
404 when `deleted_count == 0`. -/
def delete_inventory_item (inv : List InventoryItem) (item_id : String) :
    Resp Unit × List InventoryItem :=
  let r := deleteOne (fun it => it.id == item_id) inv
  if r.1 == 0 then (.notFound, inv) else (.ok (), r.2)

/-- Python string comparison: lexicographic on code points. -/
def charListLt : List Char → List Char → Bool
  | _, [] => false
  | [], _ :: _ => true
  | a :: as, b :: bs =>
    if a.toNat < b.toNat then true
    else if b.toNat < a.toNat then false
    else charListLt as bs

def strLe (a b : String) : Bool := !(charListLt b.data a.data)

def insertSorted (s : String) : List String → List String
  | [] => [s]
  | x :: xs => if strLe s x then s :: x :: xs else x :: insertSorted s xs

/-- Python `sorted` on a list of pairwise-distinct strings: any comparison
sort produces the same, uniquely determined ascending sequence, so an
insertion sort stands in for CPython's mergesort. -/
def sortStrings (l : List String) : List String := l.foldr insertSorted []

/-- `item.get('category', 'Uncategorized')`: return the stored value when
the `category` key is present (`some v`, where `v` may be Python `None`),
and the `'Uncategorized'` default only when the key is absent. -/
def categoryGetWithDefault (kv : Option (Option String)) : Option String :=
  match kv with
  | some v => v
  | none => some "Uncategorized"

/-- The `InventoryStats` response model (server.py lines 95-100); a
`categories` element is `Option String` because the computed Python list can
contain `None` (see `categoryGetWithDefault`); the declared response type
`List[str]` is checked separately by `inventoryStatsCategoriesValid`. -/
structure InventoryStats where
  total_items : Nat
  total_stock_value : ℚ
  low_stock_items : Nat
  out_of_stock_items : Nat
  categories : List (Option String)
deriving DecidableEq, Repr

/-- Pydantic validation of the `categories: List[str]` field of the
`InventoryStats` response model: `None` is not an allowed element. -/
def inventoryStatsCategoriesValid (s : InventoryStats) : Bool :=
  s.categories.all (fun c => c.isSome)

/-- `get_inventory_stats` (server.py lines 294-320): read at most 1000
documents, return the all-zero shape when none; otherwise count, sum
`purchase_cost * quantity_in_stock`, count low-stock (`0 < qty ≤ reorder`)
and out-of-stock (`qty == 0`) items, and collect the distinct
`item.get('category', 'Uncategorized')` values (`list(set(...))`, order
unspecified — modelled with `dedup`). -/
def get_inventory_stats (inv : List InventoryItem) : InventoryStats :=
  let items := inv.take 1000
  if items.isEmpty then
    { total_items := 0, total_stock_value := 0, low_stock_items := 0,
      out_of_stock_items := 0, categories := [] }
  else
    { total_items := items.length
      total_stock_value :=
        (items.map (fun it => it.purchase_cost * (it.quantity_in_stock : ℚ))).sum
      low_stock_items :=
        (items.filter (fun it =>
          it.quantity_in_stock ≤ it.reorder_level && 0 < it.quantity_in_stock)).length
      out_of_stock_items :=
        (items.filter (fun it => it.quantity_in_stock == 0)).length
      categories :=
        (items.map (fun it => categoryGetWithDefault it.category_kv)).dedup }

structure DailySalesEntry where
  date : String
  revenue : ℚ
  profit : ℚ
  transactions : Nat
deriving DecidableEq, Repr

/-- The `DashboardStats` response model (server.py lines 87-93). -/
structure DashboardStats where
  total_revenue : ℚ
  total_profit : ℚ
  total_transactions : Nat
  average_profit_margin : ℚ
  best_selling_item : Option String
  daily_sales : List DailySalesEntry
deriving DecidableEq, Repr

/-- The per-transaction date normalisation both report scans perform:
`datetime.fromisoformat(t['date_sold']).date()` (every stored `date_sold` is
a string in this model, since every write serializes it) followed by
`.isoformat()` at the grouping site.  `none` models the `ValueError` a
malformed stored string raises. -/
def tagDates : List TransactionDoc → Option (List (TransactionDoc × String))
  | [] => some []
  | t :: ts =>
    match dateFromIso t.date_sold with
    | none => none
    | some d =>
      match tagDates ts with
      | none => none
      | some r => some ((t, dateIso d) :: r)

/-- The `item_sales` dict of `get_dashboard_stats` (server.py lines 347-353):
fold over the transactions, accumulating summed quantity per item name in
first-insertion order. -/
def item_sales_of (ts : List TransactionDoc) : List (String × ℤ) :=
  ts.foldl (fun acc t =>
    if acc.any (fun p => p.1 == t.item_name) then
      acc.map (fun p =>
        if p.1 == t.item_name then (p.1, p.2 + t.quantity) else p)
    else acc ++ [(t.item_name, t.quantity)]) []

/-- `max(item_sales, key=item_sales.get)`: scan in insertion order, a later
entry replaces the champion only when strictly greater. -/
def maxByQuantity : List (String × ℤ) → Option String
  | [] => none
  | p :: ps => some ((ps.foldl (fun b q => if q.2 > b.2 then q else b) p).1)

/-- `get_dashboard_stats` (server.py lines 322-391): read at most 1000
transaction documents; all-zero shape when none; otherwise sum revenue and
profit, average the strictly positive profit margins (0 when there are
none), pick the best-selling item by summed quantity, and group revenue,
profit and count by the normalised `date_sold` string, emitting the groups
in ascending date-string order. -/
def get_dashboard_stats (docs : List TransactionDoc) : Option DashboardStats :=
  let transactions := docs.take 1000
  if transactions.isEmpty then
    some { total_revenue := 0, total_profit := 0, total_transactions := 0,
           average_profit_margin := 0, best_selling_item := none,
           daily_sales := [] }
  else
    match tagDates transactions with
    | none => none
    | some tagged =>
      let profit_margins :=
        (transactions.map (fun t => t.profit_margin)).filter (fun m => 0 < m)
      some
        { total_revenue := (transactions.map (fun t => t.revenue)).sum
          total_profit := (transactions.map (fun t => t.profit)).sum
          total_transactions := transactions.length
          average_profit_margin :=
            if profit_margins.isEmpty then 0
            else profit_margins.sum / (profit_margins.length : ℚ)
          best_selling_item := maxByQuantity (item_sales_of transactions)
          daily_sales :=
            (sortStrings ((tagged.map (fun p => p.2)).dedup)).map (fun ds =>
              let grp := tagged.filter (fun p => p.2 == ds)
              { date := ds, revenue := (grp.map (fun p => p.1.revenue)).sum,
                profit := (grp.map (fun p => p.1.profit)).sum,
                transactions := grp.length }) }

/-- The `SalesChart` response model (server.py lines 102-105). -/
structure SalesChart where
  labels : List String
  revenue_data : List ℚ
  profit_data : List ℚ
deriving DecidableEq, Repr

/-- `get_sales_chart` (server.py lines 393-430): read at most 1000
transaction documents; three empty sequences when none; otherwise group
revenue and profit by the normalised `date_sold` string, in ascending
date-string order. -/
def get_sales_chart (docs : List TransactionDoc) : Option SalesChart :=
  let transactions := docs.take 1000
  if transactions.isEmpty then
    some { labels := [], revenue_data := [], profit_data := [] }
  else
    match tagDates transactions with
    | none => none
    | some tagged =>
      let sorted_dates := sortStrings ((tagged.map (fun p => p.2)).dedup)
      some
        { labels := sorted_dates
          revenue_data := sorted_dates.map (fun ds =>
            (((tagged.filter (fun p => p.2 == ds)).map (fun p => p.1.revenue))).sum)
          profit_data := sorted_dates.map (fun ds =>
            (((tagged.filter (fun p => p.2 == ds)).map (fun p => p.1.profit))).sum) }

/-- Concrete sample fixtures, mirroring the integration-test data
(`backend_test.py`): a tracked stock item and a sale of the same name. -/
def testInventoryItem : InventoryItem :=
  { id := "inv1", item_name := "Integration Test Item", purchase_cost := 5,
    suggested_retail_price := 10, quantity_in_stock := 5, reorder_level := 2,
    supplier := none, category_kv := some (some "Test Category"),
    created_at := 0, updated_at := 0 }

def testInventoryCreate : InventoryItemCreate :=
  { item_name := "Integration Test Item", purchase_cost := 5,
    suggested_retail_price := 10, quantity_in_stock := 5, reorder_level := 2,
    supplier := none, category := some "Test Category" }

def testInventoryUpdate : InventoryItemUpdate :=
  ⟨none, none, none, some 3, none, none, none⟩

def testSaleCreate : SalesTransactionCreate :=
  { item_name := "Integration Test Item", purchase_cost := 5,
    retail_price := 10, quantity := 2, date_sold := some ⟨2024, 1, 2⟩ }

def testState : AppState :=
  { transactions := [], inventory := [testInventoryItem] }

/-- A stored sale document, as `create_transaction` would persist the spec's
iPhone Case example on 2024-01-02. -/
def testTransactionDoc : TransactionDoc :=
  { id := "t1", item_name := "iPhone Case", purchase_cost := 5,
    retail_price := 15, quantity := 1, profit := 10, revenue := 15,
    profit_margin := 200 / 3, date_sold := "2024-01-02", created_at := 0 }

def testSaleUpdate : SalesTransactionUpdate :=
  ⟨none, none, some 20, none, none⟩

/-- A stored zero-margin sale (cost 10, price 10). -/
def testZeroMarginDoc : TransactionDoc :=
  { id := "z1", item_name := "A", purchase_cost := 10, retail_price := 10,
    quantity := 1, profit := 0, revenue := 10, profit_margin := 0,
    date_sold := "2024-01-02", created_at := 0 }

/-- A stored positive-margin sale (cost 5, price 10, margin 50). -/
def testPositiveMarginDoc : TransactionDoc :=
  { id := "p1", item_name := "B", purchase_cost := 5, retail_price := 10,
    quantity := 1, profit := 5, revenue := 10, profit_margin := 50,
    date_sold := "2024-01-02", created_at := 1 }

/-! ## Helper lemmas -/

theorem digitChar_isDigit {n : Nat} (h : n < 10) : (digitChar n).isDigit = true := by
  interval_cases n <;> decide

theorem digitVal_digitChar {n : Nat} (h : n < 10) : digitVal (digitChar n) = n := by
  interval_cases n <;> decide

theorem daysInMonth_le_31 (y m : Nat) : daysInMonth y m ≤ 31 := by
  unfold daysInMonth
  split_ifs <;> norm_num

/-- Serializing a valid date with `isoformat` and parsing it back with
`fromisoformat` returns the same date. -/
theorem dateFromIso_dateIso {d : Date} (h : ValidDate d) :
    dateFromIso (dateIso d) = some d := by
  obtain ⟨h1, h2, h3, h4, h5, h6⟩ := h
  have h6' : d.day ≤ 31 := le_trans h6 (daysInMonth_le_31 _ _)
  have e1 : d.year / 1000 % 10 < 10 := Nat.mod_lt _ (by norm_num)
  have e2 : d.year / 100 % 10 < 10 := Nat.mod_lt _ (by norm_num)
  have e3 : d.year / 10 % 10 < 10 := Nat.mod_lt _ (by norm_num)
  have e4 : d.year % 10 < 10 := Nat.mod_lt _ (by norm_num)
  have e5 : d.month / 10 % 10 < 10 := Nat.mod_lt _ (by norm_num)
  have e6 : d.month % 10 < 10 := Nat.mod_lt _ (by norm_num)
  have e7 : d.day / 10 % 10 < 10 := Nat.mod_lt _ (by norm_num)
  have e8 : d.day % 10 < 10 := Nat.mod_lt _ (by norm_num)
  unfold dateIso dateFromIso
  dsimp only
  rw [if_pos]
  · have ey : ((d.year / 1000 % 10 * 10 + d.year / 100 % 10) * 10
        + d.year / 10 % 10) * 10 + d.year % 10 = d.year := by omega
    have em : d.month / 10 % 10 * 10 + d.month % 10 = d.month := by omega
    have ed : d.day / 10 % 10 * 10 + d.day % 10 = d.day := by omega
    simp only [digitVal_digitChar e1, digitVal_digitChar e2, digitVal_digitChar e3,
      digitVal_digitChar e4, digitVal_digitChar e5, digitVal_digitChar e6,
      digitVal_digitChar e7, digitVal_digitChar e8]
    rw [ey, em, ed]
    rw [if_pos ⟨h1, h3, h4, h5, h6⟩]
  · exact ⟨digitChar_isDigit e1, digitChar_isDigit e2, digitChar_isDigit e3,
      digitChar_isDigit e4, rfl, digitChar_isDigit e5, digitChar_isDigit e6,
      rfl, digitChar_isDigit e7, digitChar_isDigit e8⟩

theorem find?_eq_none_of_forall {α : Type} (p : α → Bool) (l : List α)
    (h : ∀ x ∈ l, p x = false) : l.find? p = none :=
  List.find?_eq_none.mpr (fun x hx => by simp [h x hx])

/-- `find_one` followed by `update_one` with the same predicate: the first
matching document (at some position `i`, with no match before it) is
replaced by its patch, and every other document is untouched. -/
theorem updateFirst_eq_set {α : Type} (p : α → Bool) (f : α → α) (l : List α) (x : α)
    (h : l.find? p = some x) :
    ∃ i, ∃ hi : i < l.length,
      l.get ⟨i, hi⟩ = x ∧ p x = true ∧
      (∀ j, ∀ hj : j < l.length, j < i → p (l.get ⟨j, hj⟩) = false) ∧
      updateFirst p f l = l.set i (f x) := by
  induction l with
  | nil => simp at h
  | cons a t ih =>
    by_cases hp : p a
    · rw [List.find?_cons_of_pos _ hp, Option.some_inj] at h
      subst h
      refine ⟨0, Nat.succ_pos _, rfl, hp, ?_, ?_⟩
      · intro j hj hj0
        omega
      · simp [updateFirst, hp]
    · rw [List.find?_cons_of_neg _ hp] at h
      obtain ⟨i, hi, hget, hpx, hprior, heq⟩ := ih h
      refine ⟨i + 1, Nat.succ_lt_succ hi, hget, hpx, ?_, ?_⟩
      · intro j hj hji
        cases j with
        | zero => simpa using hp
        | succ k =>
          exact hprior k (Nat.lt_of_succ_lt_succ hj) (Nat.lt_of_succ_lt_succ hji)
      · simp [updateFirst, hp, heq]

theorem mem_updateFirst {α : Type} (p : α → Bool) (f : α → α) (l : List α) (y : α)
    (hy : y ∈ updateFirst p f l) : y ∈ l ∨ ∃ x, x ∈ l ∧ y = f x := by
  induction l with
  | nil => simp [updateFirst] at hy
  | cons a t ih =>
    rw [updateFirst] at hy
    by_cases hp : p a
    · rw [if_pos hp] at hy
      rcases List.mem_cons.mp hy with h1 | h2
      · exact Or.inr ⟨a, List.mem_cons_self a t, h1⟩
      · exact Or.inl (List.mem_cons_of_mem a h2)
    · rw [if_neg hp] at hy
      rcases List.mem_cons.mp hy with h1 | h2
      · exact Or.inl (h1 ▸ List.mem_cons_self a t)
      · rcases ih h2 with h3 | ⟨x, hx, hyx⟩
        · exact Or.inl (List.mem_cons_of_mem a h3)
        · exact Or.inr ⟨x, List.mem_cons_of_mem a hx, hyx⟩

theorem deleteOne_of_none {α : Type} (p : α → Bool) (l : List α)
    (h : ∀ x ∈ l, p x = false) : deleteOne p l = (0, l) := by
  induction l with
  | nil => rfl
  | cons a t ih =>
    have ha := h a (List.mem_cons_self a t)
    simp [deleteOne, ha, ih (fun x hx => h x (List.mem_cons_of_mem a hx))]

theorem find?_append_of_none {α : Type} (p : α → Bool) (l₁ l₂ : List α)
    (h : l₁.find? p = none) : (l₁ ++ l₂).find? p = l₂.find? p := by
  induction l₁ with
  | nil => rfl
  | cons a t ih =>
    have hp : p a = false := by
      by_cases hp : p a
      · rw [List.find?_cons_of_pos _ hp] at h
        exact absurd h (by simp)
      · simpa using hp
    have ht : t.find? p = none := by
      rw [List.find?_cons_of_neg _ (by simp [hp])] at h
      exact h
    simp [List.cons_append, List.find?_cons_of_neg _ (by simp [hp] : ¬p a = true), ih ht]

theorem take_append_of_length_ge {α : Type} (n : Nat) (l₁ l₂ : List α)
    (h : n ≤ l₁.length) : (l₁ ++ l₂).take n = l₁.take n := by
  rw [List.take_append_eq_append_take, Nat.sub_eq_zero_of_le h, List.take_zero,
    List.append_nil]

/-! ## Claim theorems -/

/-- C1: for every input with `purchase_cost ≥ 0`, `retail_price ≥ 0` and
`quantity ≥ 1`, the Metrics Calculator returns
`revenue = retail_price * quantity`,
`profit = (retail_price - purchase_cost) * quantity`, and
`profit_margin = (retail_price - purchase_cost) / retail_price * 100` when
`retail_price > 0`, and `profit_margin = 0` when `retail_price = 0`. -/
theorem C1_metrics_formulas (purchase_cost retail_price : ℚ) (quantity : ℤ)
    (hpc : 0 ≤ purchase_cost) (hrp : 0 ≤ retail_price) (hq : 1 ≤ quantity) :
    (calculate_transaction_metrics purchase_cost retail_price quantity).revenue
        = retail_price * (quantity : ℚ) ∧
    (calculate_transaction_metrics purchase_cost retail_price quantity).profit
        = (retail_price - purchase_cost) * (quantity : ℚ) ∧
    (0 < retail_price →
      (calculate_transaction_metrics purchase_cost retail_price quantity).profit_margin
        = (retail_price - purchase_cost) / retail_price * 100) ∧
    (retail_price = 0 →
      (calculate_transaction_metrics purchase_cost retail_price quantity).profit_margin
        = 0) := by
  refine ⟨rfl, rfl, ?_, ?_⟩
  · intro h
    simp [calculate_transaction_metrics, if_pos h]
  · intro h
    simp [calculate_transaction_metrics, h]

/-- Witness for C1 at the spec's worked example
`{cost: 5.00, price: 15.00, qty: 1}`. -/
theorem C1_metrics_formulas_witness :
    (0 : ℚ) ≤ 5 ∧ (0 : ℚ) ≤ 15 ∧ (1 : ℤ) ≤ 1 ∧
    ((calculate_transaction_metrics 5 15 1).revenue = 15 * ((1 : ℤ) : ℚ) ∧
     (calculate_transaction_metrics 5 15 1).profit = (15 - 5) * ((1 : ℤ) : ℚ) ∧
     ((0 : ℚ) < 15 →
       (calculate_transaction_metrics 5 15 1).profit_margin = (15 - 5) / 15 * 100) ∧
     ((15 : ℚ) = 0 →
       (calculate_transaction_metrics 5 15 1).profit_margin = 0)) :=
  ⟨by norm_num, by norm_num, by norm_num,
    C1_metrics_formulas 5 15 1 (by norm_num) (by norm_num) (by norm_num)⟩

/-- C9: on an empty record set, the dashboard returns all-zero totals, empty
`daily_sales` and `best_selling_item = null`; the inventory stats return all
zeros and an empty category list; the sales chart returns three empty
sequences — all without error. -/
theorem C9_empty_reports :
    get_dashboard_stats [] =
      some { total_revenue := 0, total_profit := 0, total_transactions := 0,
             average_profit_margin := 0, best_selling_item := none,
             daily_sales := [] } ∧
    get_inventory_stats [] =
      { total_items := 0, total_stock_value := 0, low_stock_items := 0,
        out_of_stock_items := 0, categories := [] } ∧
    get_sales_chart [] =
      some { labels := [], revenue_data := [], profit_data := [] } :=
  ⟨rfl, rfl, rfl⟩

/-- C8 (code evaluated at the failing input): an inventory item created with
`category` omitted (pydantic default `None`) is stored with the `category`
key present and valued `None`, so the inventory stats compute
`categories = [None]` — the `'Uncategorized'` sentinel is not applied — and
the `List[str]` response model then rejects the `None` element. -/
theorem C8_category_sentinel_not_applied :
    (get_inventory_stats
        (create_inventory_item []
          { item_name := "Gadget", purchase_cost := 2,
            suggested_retail_price := 5, quantity_in_stock := 3,
            reorder_level := 5, supplier := none, category := none }
          "id0" 0).2).categories = [none] ∧
    some "Uncategorized" ∉
      (get_inventory_stats
        (create_inventory_item []
          { item_name := "Gadget", purchase_cost := 2,
            suggested_retail_price := 5, quantity_in_stock := 3,
            reorder_level := 5, supplier := none, category := none }
          "id0" 0).2).categories ∧
    inventoryStatsCategoriesValid
      (get_inventory_stats
        (create_inventory_item []
          { item_name := "Gadget", purchase_cost := 2,
            suggested_retail_price := 5, quantity_in_stock := 3,
            reorder_level := 5, supplier := none, category := none }
          "id0" 0).2) = false := by
  refine ⟨rfl, ?_, rfl⟩
  decide

/-- C3 (counterexample): the inventory Create operation performs no
validation, so creating an item with supplied `quantity_in_stock = -1`
reaches a state whose stock record has a negative quantity. -/
theorem C3_counterexample_negative_create :
    ((create_inventory_item []
        { item_name := "Widget", purchase_cost := 1,
          suggested_retail_price := 2, quantity_in_stock := -1,
          reorder_level := 5, supplier := none, category := none }
        "id0" 0).2.any (fun it => decide (it.quantity_in_stock < 0))) = true := by
  decide


/-- C5: for every identifier with no corresponding record, Get, Update and
Delete signal NotFound (HTTP 404), for both sale records and stock records,
and leave the stores unchanged. -/
theorem C5_not_found (transactions : List TransactionDoc)
    (inv : List InventoryItem) (transaction_id item_id : String)
    (inputT : SalesTransactionUpdate) (inputI : InventoryItemUpdate) (now : Nat)
    (ht : ∀ t ∈ transactions, t.id ≠ transaction_id)
    (hi : ∀ it ∈ inv, it.id ≠ item_id) :
    get_transaction transactions transaction_id = .notFound ∧
    update_transaction transactions transaction_id inputT now
      = (.notFound, transactions) ∧
    delete_transaction transactions transaction_id = (.notFound, transactions) ∧
    get_inventory_item inv item_id = .notFound ∧
    update_inventory_item inv item_id inputI now = (.notFound, inv) ∧
    delete_inventory_item inv item_id = (.notFound, inv) := by
  have hft : transactions.find? (fun t => t.id == transaction_id) = none :=
    find?_eq_none_of_forall _ _ (fun x hx => by simp [ht x hx])
  have hfi : inv.find? (fun it => it.id == item_id) = none :=
    find?_eq_none_of_forall _ _ (fun x hx => by simp [hi x hx])
  have hdt : deleteOne (fun t => t.id == transaction_id) transactions
      = (0, transactions) :=
    deleteOne_of_none _ _ (fun x hx => by simp [ht x hx])
  have hdi : deleteOne (fun it => it.id == item_id) inv = (0, inv) :=
    deleteOne_of_none _ _ (fun x hx => by simp [hi x hx])
  refine ⟨?_, ?_, ?_, ?_, ?_, ?_⟩
  · unfold get_transaction
    rw [hft]
  · unfold update_transaction
    rw [hft]
  · unfold delete_transaction
    rw [hdt]
    rfl
  · unfold get_inventory_item
    rw [hfi]
  · unfold update_inventory_item
    rw [hfi]
  · unfold delete_inventory_item
    rw [hdi]
    rfl

/-- Witness for C5: the id `"missing"` over singleton stores that do not
contain it. -/
theorem C5_not_found_witness :
    get_transaction [] "missing" = .notFound ∧
    update_transaction [] "missing"
      ⟨none, none, none, none, none⟩ 7 = (.notFound, []) ∧
    delete_transaction [] "missing" = (.notFound, []) ∧
    get_inventory_item [] "missing" = .notFound ∧
    update_inventory_item [] "missing"
      ⟨none, none, none, none, none, none, none⟩ 7 = (.notFound, []) ∧
    delete_inventory_item [] "missing" = (.notFound, []) :=
  C5_not_found [] [] "missing" "missing"
    ⟨none, none, none, none, none⟩ ⟨none, none, none, none, none, none, none⟩ 7
    (by simp) (by simp)


/-- C2: after a sale is created, the first stock record whose item name
exactly matches the sale's item name (the one `find_one` returns) has its
quantity set to `max 0 (quantity_in_stock - quantity_sold)` and its updated
timestamp refreshed, with every other record untouched; when no stock
record's name matches, the inventory is unchanged and the sale creation
still succeeds, returning and persisting the created record. -/
theorem C2_inventory_sync (st : AppState) (input : SalesTransactionCreate)
    (today : Date) (freshId : String) (now : Nat) :
    (∀ it, st.inventory.find? (fun i => i.item_name == input.item_name) = some it →
      it.item_name = input.item_name ∧
      ∃ i, ∃ hi : i < st.inventory.length,
        st.inventory.get ⟨i, hi⟩ = it ∧
        (∀ j, ∀ hj : j < st.inventory.length, j < i →
          (st.inventory.get ⟨j, hj⟩).item_name ≠ input.item_name) ∧
        (create_transaction st input today freshId now).2.inventory =
          st.inventory.set i
            { it with
              quantity_in_stock := max 0 (it.quantity_in_stock - input.quantity),
              updated_at := now }) ∧
    (st.inventory.find? (fun i => i.item_name == input.item_name) = none →
      (create_transaction st input today freshId now).2.inventory =
        st.inventory ∧
      (create_transaction st input today freshId now).1.item_name =
        input.item_name ∧
      (create_transaction st input today freshId now).2.transactions =
        st.transactions ++
          [serializeTransaction (create_transaction st input today freshId now).1]) := by
  constructor
  · intro it hfind
    have hname : it.item_name = input.item_name := by
      have := List.find?_some hfind
      simpa using this
    refine ⟨hname, ?_⟩
    obtain ⟨i, hi, hget, hpx, hprior, heq⟩ :=
      updateFirst_eq_set (fun i => i.item_name == input.item_name)
        (fun i => { i with
          quantity_in_stock :=
            if it.quantity_in_stock - input.quantity < 0 then 0
            else it.quantity_in_stock - input.quantity,
          updated_at := now })
        st.inventory it hfind
    refine ⟨i, hi, hget, ?_, ?_⟩
    · intro j hj hji
      have := hprior j hj hji
      simpa using this
    · have hmax : (if it.quantity_in_stock - input.quantity < 0 then 0
          else it.quantity_in_stock - input.quantity) =
          max 0 (it.quantity_in_stock - input.quantity) := by omega
      show update_inventory_on_sale st.inventory input.item_name input.quantity now
          = _
      unfold update_inventory_on_sale
      rw [hfind]
      dsimp only
      rw [heq, hmax]
  · intro hfind
    refine ⟨?_, rfl, rfl⟩
    show update_inventory_on_sale st.inventory input.item_name input.quantity now
        = st.inventory
    unfold update_inventory_on_sale
    rw [hfind]


/-- Witness for C2 at the spec's integration example: stock
`"Integration Test Item"` with 5 in stock, a sale of quantity 2. -/
theorem C2_inventory_sync_witness :
    let it : InventoryItem :=
      { id := "inv1", item_name := "Integration Test Item", purchase_cost := 3,
        suggested_retail_price := 8, quantity_in_stock := 5, reorder_level := 5,
        supplier := none, category_kv := some none, created_at := 0,
        updated_at := 0 }
    let st : AppState := { transactions := [], inventory := [it] }
    let input : SalesTransactionCreate :=
      { item_name := "Integration Test Item", purchase_cost := 3,
        retail_price := 8, quantity := 2, date_sold := some ⟨2024, 1, 2⟩ }
    it.item_name = input.item_name ∧
    ∃ i, ∃ hi : i < st.inventory.length,
      st.inventory.get ⟨i, hi⟩ = it ∧
      (∀ j, ∀ hj : j < st.inventory.length, j < i →
        (st.inventory.get ⟨j, hj⟩).item_name ≠ input.item_name) ∧
      (create_transaction st input ⟨2024, 1, 2⟩ "t1" 9).2.inventory =
        st.inventory.set i
          { it with
            quantity_in_stock := max 0 (it.quantity_in_stock - input.quantity),
            updated_at := 9 } := by
  intro it st input
  exact (C2_inventory_sync st input ⟨2024, 1, 2⟩ "t1" 9).1 it rfl

/-- All stock records hold a non-negative quantity. -/
def InventoryQtyInvariant (inv : List InventoryItem) : Prop :=
  ∀ it ∈ inv, 0 ≤ it.quantity_in_stock

/-- C3 (amended): the synchronizer's decrement always leaves quantities
non-negative (it clamps at 0), and inventory Create and Update preserve the
invariant `quantity_in_stock ≥ 0` provided the quantity they are given is
non-negative — the code itself does not validate, so the proviso is
necessary (see the counterexample). -/
theorem C3_invariant_preservation (inv : List InventoryItem)
    (inputC : InventoryItemCreate) (inputU : InventoryItemUpdate)
    (item_id freshId : String) (now : Nat) (st : AppState)
    (inputT : SalesTransactionCreate) (today : Date) :
    (InventoryQtyInvariant inv → 0 ≤ inputC.quantity_in_stock →
      InventoryQtyInvariant (create_inventory_item inv inputC freshId now).2) ∧
    (InventoryQtyInvariant inv →
      (∀ q, inputU.quantity_in_stock = some q → 0 ≤ q) →
      InventoryQtyInvariant (update_inventory_item inv item_id inputU now).2) ∧
    (InventoryQtyInvariant st.inventory →
      InventoryQtyInvariant
        (create_transaction st inputT today freshId now).2.inventory) := by
  refine ⟨?_, ?_, ?_⟩
  · intro hinv hq y hy
    unfold create_inventory_item at hy
    dsimp only at hy
    rcases List.mem_append.mp hy with h1 | h2
    · exact hinv y h1
    · rw [List.mem_singleton.mp h2]
      exact hq
  · intro hinv hq y hy
    unfold update_inventory_item at hy
    cases hfind : inv.find? (fun it => it.id == item_id) with
    | none =>
      rw [hfind] at hy
      exact hinv y hy
    | some existing =>
      rw [hfind] at hy
      dsimp only at hy
      rcases mem_updateFirst _ _ _ _ hy with h1 | ⟨x, hx, hyx⟩
      · exact hinv y h1
      · rw [hyx]
        show (0 : ℤ) ≤ inputU.quantity_in_stock.getD existing.quantity_in_stock
        cases hqs : inputU.quantity_in_stock with
        | none =>
          simpa using hinv existing (List.mem_of_find?_eq_some hfind)
        | some q =>
          simpa using hq q hqs
  · intro hinv y hy
    unfold create_transaction at hy
    dsimp only at hy
    unfold update_inventory_on_sale at hy
    cases hfind : st.inventory.find?
        (fun it => it.item_name == inputT.item_name) with
    | none =>
      rw [hfind] at hy
      exact hinv y hy
    | some it =>
      rw [hfind] at hy
      dsimp only at hy
      rcases mem_updateFirst _ _ _ _ hy with h1 | ⟨x, hx, hyx⟩
      · exact hinv y h1
      · rw [hyx]
        show (0 : ℤ) ≤ (if it.quantity_in_stock - inputT.quantity < 0 then 0
          else it.quantity_in_stock - inputT.quantity)
        omega


/-- Witness for C3: concrete non-negative create, update and sale inputs. -/
theorem C3_invariant_preservation_witness :
    InventoryQtyInvariant
      (create_inventory_item [testInventoryItem] testInventoryCreate "i2" 1).2 ∧
    InventoryQtyInvariant
      (update_inventory_item [testInventoryItem] "inv1" testInventoryUpdate 1).2 ∧
    InventoryQtyInvariant
      (create_transaction testState testSaleCreate ⟨2024, 1, 2⟩ "t1" 1).2.inventory := by
  have H := C3_invariant_preservation [testInventoryItem] testInventoryCreate
    testInventoryUpdate "inv1" "i2" 1 testState testSaleCreate ⟨2024, 1, 2⟩
  exact ⟨H.1 (by unfold InventoryQtyInvariant; decide) (by decide),
    H.2.1 (by unfold InventoryQtyInvariant; decide)
      (by intro q hq; simp [testInventoryUpdate] at hq; omega),
    H.2.2 (by unfold InventoryQtyInvariant; decide)⟩

/-- C4: updating an existing sale with a partial update keeps every
unsupplied base field at its previous value, recomputes the three derived
fields from the merged base fields, refreshes the creation timestamp to the
update time, keeps the identifier, and persists exactly the merged record. -/
theorem C4_update_frame (transactions : List TransactionDoc)
    (transaction_id : String) (input : SalesTransactionUpdate) (now : Nat)
    (existing : TransactionDoc) (d0 : Date)
    (hfind : transactions.find? (fun t => t.id == transaction_id)
      = some existing)
    (hdate : dateFromIso existing.date_sold = some d0) :
    ∃ u, update_transaction transactions transaction_id input now =
        (.ok u,
          updateFirst (fun t => t.id == transaction_id)
            (fun _ => serializeTransaction u) transactions) ∧
      u.id = existing.id ∧
      (input.item_name = none → u.item_name = existing.item_name) ∧
      (input.purchase_cost = none → u.purchase_cost = existing.purchase_cost) ∧
      (input.retail_price = none → u.retail_price = existing.retail_price) ∧
      (input.quantity = none → u.quantity = existing.quantity) ∧
      (input.date_sold = none → u.date_sold = d0) ∧
      u.profit = (u.retail_price - u.purchase_cost) * (u.quantity : ℚ) ∧
      u.revenue = u.retail_price * (u.quantity : ℚ) ∧
      u.profit_margin = (if 0 < u.retail_price then
        (u.retail_price - u.purchase_cost) / u.retail_price * 100 else 0) ∧
      u.created_at = now := by
  unfold update_transaction
  rw [hfind]
  dsimp only
  rw [hdate]
  dsimp only
  refine ⟨_, rfl, rfl, ?_, ?_, ?_, ?_, ?_, rfl, rfl, rfl, rfl⟩
  all_goals intro h
  all_goals simp [h]


/-- Witness for C4: updating only `retail_price` of a stored iPhone Case
sale. -/
theorem C4_update_frame_witness :
    ∃ u, update_transaction [testTransactionDoc] "t1" testSaleUpdate 5 =
        (.ok u,
          updateFirst (fun t => t.id == "t1")
            (fun _ => serializeTransaction u) [testTransactionDoc]) ∧
      u.id = testTransactionDoc.id ∧
      (testSaleUpdate.item_name = none →
        u.item_name = testTransactionDoc.item_name) ∧
      (testSaleUpdate.purchase_cost = none →
        u.purchase_cost = testTransactionDoc.purchase_cost) ∧
      (testSaleUpdate.retail_price = none →
        u.retail_price = testTransactionDoc.retail_price) ∧
      (testSaleUpdate.quantity = none → u.quantity = testTransactionDoc.quantity) ∧
      (testSaleUpdate.date_sold = none → u.date_sold = ⟨2024, 1, 2⟩) ∧
      u.profit = (u.retail_price - u.purchase_cost) * (u.quantity : ℚ) ∧
      u.revenue = u.retail_price * (u.quantity : ℚ) ∧
      u.profit_margin = (if 0 < u.retail_price then
        (u.retail_price - u.purchase_cost) / u.retail_price * 100 else 0) ∧
      u.created_at = 5 :=
  C4_update_frame [testTransactionDoc] "t1" testSaleUpdate 5 testTransactionDoc
    ⟨2024, 1, 2⟩ rfl rfl

/-- C6: creating a sale and then fetching it by the identifier returned at
creation yields exactly the record returned by Create; the stored
`date_sold` string is parsed back to the original date. -/
theorem C6_create_get_roundtrip (st : AppState) (input : SalesTransactionCreate)
    (today : Date) (freshId : String) (now : Nat)
    (hfresh : ∀ t ∈ st.transactions, t.id ≠ freshId)
    (hvalid : ValidDate (input.date_sold.getD today)) :
    get_transaction (create_transaction st input today freshId now).2.transactions
        (create_transaction st input today freshId now).1.id =
      .ok (create_transaction st input today freshId now).1 := by
  have hnone : st.transactions.find? (fun t => t.id == freshId) = none :=
    find?_eq_none_of_forall _ _ (fun x hx => by simp [hfresh x hx])
  unfold create_transaction get_transaction
  dsimp only
  rw [find?_append_of_none _ _ _ hnone]
  rw [List.find?_cons_of_pos _ (by simp [serializeTransaction])]
  unfold deserializeTransaction serializeTransaction
  dsimp only
  rw [dateFromIso_dateIso hvalid]
  rfl

/-- Witness for C6: create the iPhone Case sale in the empty state and fetch
it back. -/
theorem C6_create_get_roundtrip_witness :
    get_transaction
        (create_transaction ⟨[], []⟩ testSaleCreate ⟨2024, 1, 2⟩ "t9" 4).2.transactions
        (create_transaction ⟨[], []⟩ testSaleCreate ⟨2024, 1, 2⟩ "t9" 4).1.id =
      .ok (create_transaction ⟨[], []⟩ testSaleCreate ⟨2024, 1, 2⟩ "t9" 4).1 :=
  C6_create_get_roundtrip ⟨[], []⟩ testSaleCreate ⟨2024, 1, 2⟩ "t9" 4
    (by simp) (by decide)

/-- The per-record date parse of the report scans succeeds on every record
whose stored `date_sold` parses. -/
theorem tagDates_of_forall_isSome (l : List TransactionDoc)
    (h : ∀ t ∈ l, (dateFromIso t.date_sold).isSome = true) :
    ∃ tagged, tagDates l = some tagged := by
  induction l with
  | nil => exact ⟨[], rfl⟩
  | cons t ts ih =>
    obtain ⟨d, hd⟩ := Option.isSome_iff_exists.mp (h t (List.mem_cons_self t ts))
    obtain ⟨r, hr⟩ := ih (fun x hx => h x (List.mem_cons_of_mem t hx))
    exact ⟨(t, dateIso d) :: r, by simp [tagDates, hd, hr]⟩

/-- C7: for a non-empty record set (within the 1000-record read bound, all
stored dates well-formed), the dashboard's `average_profit_margin` is the
arithmetic mean of the strictly positive profit margins — zero or negative
margins are excluded from both numerator and denominator — and it is `0`
when no record has positive margin. -/
theorem C7_average_profit_margin (docs : List TransactionDoc)
    (hne : docs ≠ []) (hlen : docs.length ≤ 1000)
    (hdates : ∀ t ∈ docs, (dateFromIso t.date_sold).isSome = true) :
    ∃ s, get_dashboard_stats docs = some s ∧
      (((docs.map (fun t => t.profit_margin)).filter (fun m => 0 < m)) = [] →
        s.average_profit_margin = 0) ∧
      (((docs.map (fun t => t.profit_margin)).filter (fun m => 0 < m)) ≠ [] →
        s.average_profit_margin =
          ((docs.map (fun t => t.profit_margin)).filter (fun m => 0 < m)).sum /
            ((((docs.map (fun t => t.profit_margin)).filter (fun m => 0 < m)).length : ℚ))) := by
  have htake : docs.take 1000 = docs := List.take_of_length_le hlen
  have hemp : docs.isEmpty = false := by
    cases docs with
    | nil => exact absurd rfl hne
    | cons a t => rfl
  obtain ⟨tagged, htag⟩ := tagDates_of_forall_isSome docs hdates
  unfold get_dashboard_stats
  dsimp only
  rw [htake, hemp]
  simp only [Bool.false_eq_true, if_false]
  rw [htag]
  dsimp only
  refine ⟨_, rfl, ?_, ?_⟩
  · intro h
    dsimp only
    rw [h]
    rfl
  · intro h
    dsimp only
    rw [if_neg (by simpa [List.isEmpty_iff] using h)]

/-- Witness for C7: one zero-margin and one positive-margin sale — the
zero-margin record is excluded, so the average is the positive margin. -/
theorem C7_average_profit_margin_witness :
    ∃ s, get_dashboard_stats [testZeroMarginDoc, testPositiveMarginDoc] = some s ∧
      ((([testZeroMarginDoc, testPositiveMarginDoc].map
          (fun t => t.profit_margin)).filter (fun m => 0 < m)) = [] →
        s.average_profit_margin = 0) ∧
      ((([testZeroMarginDoc, testPositiveMarginDoc].map
          (fun t => t.profit_margin)).filter (fun m => 0 < m)) ≠ [] →
        s.average_profit_margin =
          (([testZeroMarginDoc, testPositiveMarginDoc].map
            (fun t => t.profit_margin)).filter (fun m => 0 < m)).sum /
            ((([testZeroMarginDoc, testPositiveMarginDoc].map
              (fun t => t.profit_margin)).filter (fun m => 0 < m)).length : ℚ)) :=
  C7_average_profit_margin [testZeroMarginDoc, testPositiveMarginDoc]
    (by simp) (by simp) (by decide)

/-- C10: each report reads at most the first 1000 documents of its store
(`to_list(1000)`), so it computes the same result on the first 1000 records
alone, and records beyond the first 1000 do not affect it. -/
theorem C10_reports_capped (tdocs textra : List TransactionDoc)
    (idocs iextra : List InventoryItem)
    (ht : 1000 ≤ tdocs.length) (hi : 1000 ≤ idocs.length) :
    get_dashboard_stats (tdocs ++ textra) = get_dashboard_stats tdocs ∧
    get_sales_chart (tdocs ++ textra) = get_sales_chart tdocs ∧
    get_inventory_stats (idocs ++ iextra) = get_inventory_stats idocs ∧
    get_dashboard_stats tdocs = get_dashboard_stats (tdocs.take 1000) ∧
    get_sales_chart tdocs = get_sales_chart (tdocs.take 1000) ∧
    get_inventory_stats idocs = get_inventory_stats (idocs.take 1000) := by
  have h1 := take_append_of_length_ge 1000 tdocs textra ht
  have h2 := take_append_of_length_ge 1000 idocs iextra hi
  have h3 : (tdocs.take 1000).take 1000 = tdocs.take 1000 := by
    simp [List.take_take]
  have h4 : (idocs.take 1000).take 1000 = idocs.take 1000 := by
    simp [List.take_take]
  refine ⟨?_, ?_, ?_, ?_, ?_, ?_⟩
  · unfold get_dashboard_stats
    rw [h1]
  · unfold get_sales_chart
    rw [h1]
  · unfold get_inventory_stats
    rw [h2]
  · unfold get_dashboard_stats
    rw [h3]
  · unfold get_sales_chart
    rw [h3]
  · unfold get_inventory_stats
    rw [h4]

/-- Witness for C10: a store of exactly 1000 copies of the sample documents
plus one extra record. -/
theorem C10_reports_capped_witness :
    get_dashboard_stats (List.replicate 1000 testTransactionDoc ++ [testTransactionDoc])
      = get_dashboard_stats (List.replicate 1000 testTransactionDoc) ∧
    get_sales_chart (List.replicate 1000 testTransactionDoc ++ [testTransactionDoc])
      = get_sales_chart (List.replicate 1000 testTransactionDoc) ∧
    get_inventory_stats (List.replicate 1000 testInventoryItem ++ [testInventoryItem])
      = get_inventory_stats (List.replicate 1000 testInventoryItem) ∧
    get_dashboard_stats (List.replicate 1000 testTransactionDoc)
      = get_dashboard_stats ((List.replicate 1000 testTransactionDoc).take 1000) ∧
    get_sales_chart (List.replicate 1000 testTransactionDoc)
      = get_sales_chart ((List.replicate 1000 testTransactionDoc).take 1000) ∧
    get_inventory_stats (List.replicate 1000 testInventoryItem)
      = get_inventory_stats ((List.replicate 1000 testInventoryItem).take 1000) :=
  C10_reports_capped (List.replicate 1000 testTransactionDoc) [testTransactionDoc]
    (List.replicate 1000 testInventoryItem) [testInventoryItem]
    (by simp only [List.length_replicate]; exact Nat.le_refl 1000)
    (by simp only [List.length_replicate]; exact Nat.le_refl 1000)

end SalesManager
